import Mathlib

/-!
Formal model of the ClimateX forecasting backend.

This file is a shallow embedding of the forecasting engine found in
src/backend/weather_forecast_fixed.py (the module served by the HTTP app)
and src/backend/weather_forecast.py (the earlier variant), together with
theorems settling the frozen claims about its specification.

Modelling conventions:
- Calendar dates are integers counting days since 1970-01-01, with exact
  proleptic-Gregorian conversions mirroring pandas Timestamp day semantics.
- Python floats are modelled by exact rationals; the float literal 0.2 and
  the products 0.9*p, 1.1*p, 1.05*m, 1.25*m, 0.95*r, 0.8*r are modelled
  exactly (the claims under study are robust to the tiny float rounding of
  these products).  Float NaN and the infinities, which matter only for the
  weather-condition lookup, are modelled by a dedicated type.
- The fitted sklearn regressors are opaque trained objects whose only use
  is a predict call; they are modelled as function parameters, fallible
  (Option-valued) where the source wraps the call in try/except.
- np.sin and np.cos of the cyclical day encoding are modelled as opaque
  function parameters of the engine: no claim depends on their values,
  only on when and from what argument they are recomputed.
- Random draws (np.random.normal fallback noise, np.random.uniform interval
  widening) are modelled as explicit input streams, one value per use.
- Python exceptions that the source lets escape (max() over an empty
  sequence, a failed run) are modelled by Option/none.
-/

namespace ClimateX

/-! ## Calendar arithmetic (proleptic Gregorian, days since 1970-01-01) -/

/-- Day number of a civil date (Howard Hinnant's days-from-civil algorithm). -/
def ymdToDays (y m d : ℤ) : ℤ :=
  let yy := y - (if m ≤ 2 then 1 else 0)
  let era := yy.fdiv 400
  let yoe := yy - era * 400
  let mp := m + (if 2 < m then -3 else 9)
  let doy := (153 * mp + 2).ediv 5 + d - 1
  let doe := yoe * 365 + yoe.ediv 4 - yoe.ediv 100 + doy
  era * 146097 + doe - 719468

/-- Civil date (year, month, day) of a day number (civil-from-days). -/
def daysToYmd (z0 : ℤ) : ℤ × ℤ × ℤ :=
  let z := z0 + 719468
  let era := z.fdiv 146097
  let doe := z - era * 146097
  let yoe := (doe - doe.ediv 1460 + doe.ediv 36524 - doe.ediv 146096).ediv 365
  let y := yoe + era * 400
  let doy := doe - (365 * yoe + yoe.ediv 4 - yoe.ediv 100)
  let mp := (5 * doy + 2).ediv 153
  let d := doy - (153 * mp + 2).ediv 5 + 1
  let m := mp + (if mp < 10 then 3 else -9)
  (y + (if m ≤ 2 then 1 else 0), m, d)

def yearOf (z : ℤ) : ℤ := (daysToYmd z).1

def monthOf (z : ℤ) : ℤ := (daysToYmd z).2.1

/-- Ordinal day of the year, 1-based (pandas Timestamp.dayofyear). -/
def dayOfYearOf (z : ℤ) : ℤ := z - ymdToDays (yearOf z) 1 1 + 1

/-- Weekday with Monday = 0 (1970-01-01 was a Thursday). -/
def weekdayOf (z : ℤ) : ℤ := (z + 3).emod 7

/-- ISO-8601 week number (pandas isocalendar().week), via the Thursday rule. -/
def isoWeekOf (z : ℤ) : ℤ :=
  let thursday := z - weekdayOf z + 3
  (thursday - ymdToDays (daysToYmd thursday).1 1 1).ediv 7 + 1

/-! ## Python float comparison semantics for the condition lookup -/

/-- Python float values relevant to the weather-condition table: ordinary
    (finite) values, NaN, and the two infinities used as interval ends. -/
inductive PyFloat where
  | val (q : ℚ)
  | nan
  | inf
  | ninf
deriving DecidableEq

/-- Python strict less-than on floats: any comparison with NaN is false. -/
def pyLt : PyFloat → PyFloat → Bool
  | .val a, .val b => decide (a < b)
  | .val _, .inf => true
  | .ninf, .val _ => true
  | .ninf, .inf => true
  | _, _ => false

/-- Python less-or-equal on floats: any comparison with NaN is false. -/
def pyLe : PyFloat → PyFloat → Bool
  | .val a, .val b => decide (a ≤ b)
  | .val _, .inf => true
  | .ninf, .val _ => true
  | .ninf, .inf => true
  | .ninf, .ninf => true
  | .inf, .inf => true
  | _, _ => false

/-- The WEATHER_CONDITIONS dictionary, in Python 3.7+ insertion order. -/
def WEATHER_CONDITIONS : List ((PyFloat × PyFloat) × String) :=
  [((.ninf, .val 32), "freezing"),
   ((.val 32, .val 50), "cold"),
   ((.val 50, .val 65), "cool"),
   ((.val 65, .val 75), "mild"),
   ((.val 75, .val 85), "warm"),
   ((.val 85, .val 95), "hot"),
   ((.val 95, .inf), "very_hot")]

/-- First entry of the table whose half-open interval contains the value. -/
def condLookup (temp : PyFloat) : List ((PyFloat × PyFloat) × String) → String
  | [] => "mild"
  | (bounds, c) :: rest =>
    if pyLt bounds.1 temp && pyLe temp bounds.2 then c else condLookup temp rest

/-- Map temperature to a weather condition (both backend modules). -/
def get_weather_condition (temp : PyFloat) : String :=
  condLookup temp WEATHER_CONDITIONS

/-! ## Data model -/

/-- Value stored in the season column: load_data writes a string label,
    the generation loop overwrites it with a numeric season code. -/
inductive SeasonVal where
  | label (s : String)
  | num (n : ℤ)
deriving DecidableEq

/-- Working row of the autoregressive loop (one row of the weather frame):
    its index date, the feature columns the loop touches, and a function
    standing for every remaining carried-forward column (auxiliary measured
    fields such as precipitation; identifier columns behave identically). -/
structure WRow where
  date : ℤ
  tmax : ℚ
  tmin : ℚ
  target_tmax : ℚ
  target_tmin : ℚ
  dayofyear : ℤ
  month : ℤ
  week : ℤ
  season : SeasonVal
  sin_day : ℚ
  cos_day : ℚ
  temp_range : Option ℚ
  aux : String → ℚ

def defaultRow : WRow :=
  ⟨0, 0, 0, 0, 0, 0, 0, 0, .label "", 0, 0, none, fun _ => 0⟩

/-- One emitted daily forecast record. Confidence intervals are
    (lower, upper) pairs. -/
structure ForecastPoint where
  date : ℤ
  predicted_tmax : ℚ
  predicted_tmin : ℚ
  temp_range : ℚ
  avg_temp : ℚ
  weather_condition : String
  tmax_ci : ℚ × ℚ
  tmin_ci : ℚ × ℚ
deriving DecidableEq

/-! ## Shared per-step time-feature recomputation

Both generation loops update the working row's seasonal features for the
new predicted date before predicting:
  last_known["dayofyear"], ["month"], ["week"],
  ["season"] = predicted_date.month % 12 // 3 + 1,
  ["sin_day"] = np.sin(2*pi*dayofyear/365.25), ["cos_day"] = np.cos(...).
The sine and cosine encoders are opaque parameters sinD, cosD applied to
the recomputed day-of-year argument exactly as in the source. -/

def updateTimeFeatures (sinD cosD : ℤ → ℚ) (r : WRow) (d : ℤ) : WRow :=
  { r with
    dayofyear := dayOfYearOf d
    month := monthOf d
    week := isoWeekOf d
    season := SeasonVal.num (((monthOf d).emod 12).ediv 3 + 1)
    sin_day := sinD (dayOfYearOf d)
    cos_day := cosD (dayOfYearOf d) }

/-! ## The served module: weather_forecast_fixed.simple_generate_forecast -/

/-- Environment of one simple_generate_forecast run: the two fitted
    regressors (fallible: none models a raised exception inside the
    try block), the cyclical encoders, and the np.random.normal(0, 2)
    fallback noise draws, one pair per step index. -/
structure SimpleCtx where
  predictMax : WRow → Option ℚ
  predictMin : WRow → Option ℚ
  sinD : ℤ → ℚ
  cosD : ℤ → ℚ
  noiseMax : ℕ → ℚ
  noiseMin : ℕ → ℚ

/-- Predictions for one step. The source wraps both predict calls in a
    single try/except: if either raises, both values fall back to the
    working row's previous tmax/tmin plus Gaussian noise. -/
def stepPredict (c : SimpleCtx) (r1 : WRow) (i : ℕ) : ℚ × ℚ :=
  match c.predictMax r1 with
  | some a =>
    match c.predictMin r1 with
    | some b => (a, b)
    | none => (r1.tmax + c.noiseMax i, r1.tmin + c.noiseMin i)
  | none => (r1.tmax + c.noiseMax i, r1.tmin + c.noiseMin i)

/-- Simple confidence interval of the served module:
    lower = max(0, pred*0.9), upper = pred*1.1 (deterministic). -/
def simpleCI (p : ℚ) : ℚ × ℚ := (max 0 (p * 0.9), p * 1.1)

/-- One iteration of the served module's generation loop: recompute time
    features for date startD + i, predict (with fallback), emit the point,
    and mutate the working row (index, tmax, tmin, both targets, and
    temp_range when that column is present). -/
def forecastStep (c : SimpleCtx) (startD : ℤ) (i : ℕ) (r : WRow) :
    ForecastPoint × WRow :=
  let d := startD + i
  let r1 := updateTimeFeatures c.sinD c.cosD r d
  let pp := stepPredict c r1 i
  let avg := (pp.1 + pp.2) / 2
  let point : ForecastPoint :=
    { date := d
      predicted_tmax := pp.1
      predicted_tmin := pp.2
      temp_range := pp.1 - pp.2
      avg_temp := avg
      weather_condition := get_weather_condition (.val avg)
      tmax_ci := simpleCI pp.1
      tmin_ci := simpleCI pp.2 }
  let r2 : WRow :=
    { r1 with
      date := d
      tmax := pp.1
      tmin := pp.2
      target_tmax := pp.1
      target_tmin := pp.2
      temp_range := r1.temp_range.map (fun _ => pp.1 - pp.2) }
  (point, r2)

/-- The loop for day in range(days), threading the working row. The index
    i is the current step number, k the number of steps left. -/
def genPoints (c : SimpleCtx) (startD : ℤ) : WRow → ℕ → ℕ → List ForecastPoint
  | _, _, 0 => []
  | r, i, Nat.succ k =>
    let pr := forecastStep c startD i r
    pr.1 :: genPoints c startD pr.2 (i + 1) k

/-- Seed-row selection of simple_generate_forecast: with a start date, the
    latest series row dated at or before it, falling back to the earliest
    row when the request precedes all dates; with no start date, the last
    row of the series. -/
def seedRow (series : List WRow) (startDate : Option ℤ) : WRow :=
  match startDate with
  | some sd =>
    let earlier := series.filter (fun r => decide (r.date ≤ sd))
    match earlier.getLast? with
    | some r => r
    | none => series.headD defaultRow
  | none => series.getLastD defaultRow

/-- The date the emitted forecast dates start from: the requested start
    date itself when one was supplied, else the seed (last) row's date. -/
def predStartDate (series : List WRow) (startDate : Option ℤ) : ℤ :=
  match startDate with
  | some sd => sd
  | none => (seedRow series none).date

/-- Daily points produced by simple_generate_forecast. A negative days
    argument iterates range(days) zero times, like Python. -/
def simpleForecastPoints (c : SimpleCtx) (series : List WRow) (days : ℤ)
    (startDate : Option ℤ) : List ForecastPoint :=
  genPoints c (predStartDate series startDate) (seedRow series startDate) 0
    days.toNat

/-! ## Summary aggregation and the forecast bundle -/

/-- Python max(seq, key=f): the first element attaining the maximum.
    none models the ValueError raised on an empty sequence. -/
def firstMaxBy (f : ForecastPoint → ℚ) : List ForecastPoint → Option ForecastPoint
  | [] => none
  | h :: t => some (t.foldl (fun best p => if f best < f p then p else best) h)

/-- Python min(seq, key=f): the first element attaining the minimum.
    none models the ValueError raised on an empty sequence. -/
def firstMinBy (f : ForecastPoint → ℚ) : List ForecastPoint → Option ForecastPoint
  | [] => none
  | h :: t => some (t.foldl (fun best p => if f p < f best then p else best) h)

/-- Membership lookup of a date in the series index. -/
def lookupDate (series : List WRow) (d : ℤ) : Option WRow :=
  series.find? (fun r => decide (r.date = d))

/-- Historical context window: walk min(365, N) consecutive dates from the
    row at position N - min(365, N), collecting (date, tmax, tmin) for the
    dates present in the index. -/
def historicalData (series : List WRow) : List (ℤ × ℚ × ℚ) :=
  let n := min 365 series.length
  let start := ((series.drop (series.length - n)).headD defaultRow).date
  (List.range n).filterMap fun i =>
    (lookupDate series (start + i)).map fun r => (r.date, r.tmax, r.tmin)

/-- Season label used by the summary aggregation (month-based). -/
def seasonLabelOfMonth (m : ℤ) : String :=
  if m = 12 ∨ m = 1 ∨ m = 2 then "winter"
  else if m = 3 ∨ m = 4 ∨ m = 5 then "spring"
  else if m = 6 ∨ m = 7 ∨ m = 8 then "summer"
  else "fall"

/-- Seasonal summary: per observed season, the count of points and the
    arithmetic means of the predicted tmax/tmin; seasons with no points
    are absent (none). -/
def seasonalSummary (pts : List ForecastPoint) : String → Option (ℕ × ℚ × ℚ) :=
  fun s =>
    let ps := pts.filter fun p =>
      decide (seasonLabelOfMonth (monthOf p.date) = s)
    if ps.isEmpty then none
    else some (ps.length,
      (ps.map (fun p => p.predicted_tmax)).sum / (ps.length : ℚ),
      (ps.map (fun p => p.predicted_tmin)).sum / (ps.length : ℚ))

/-- Occurrence count of each weather condition across the sequence. -/
def condCounts (pts : List ForecastPoint) : String → ℕ :=
  fun s => (pts.filter fun p => decide (p.weather_condition = s)).length

/-- The forecast bundle returned by a generation run. -/
structure Bundle where
  daily : List ForecastPoint
  historical : List (ℤ × ℚ × ℚ)
  hottest : ForecastPoint
  coldest : ForecastPoint
  seasonal : String → Option (ℕ × ℚ × ℚ)
  conditions : String → ℕ

/-- Full simple_generate_forecast. The hottest/coldest extraction calls
    Python max/min on the daily list, which raises on an empty list, so
    the whole run fails (none) when no points were generated. -/
def simpleGenerateForecast (c : SimpleCtx) (series : List WRow) (days : ℤ)
    (startDate : Option ℤ) : Option Bundle :=
  let pts := simpleForecastPoints c series days startDate
  match firstMaxBy (fun p => p.predicted_tmax) pts,
        firstMinBy (fun p => p.predicted_tmin) pts with
  | some h, some cold =>
    some ⟨pts, historicalData series, h, cold, seasonalSummary pts,
      condCounts pts⟩
  | _, _ => none

/-! ## Model training output of the served module (simple_train_models)

Only two RandomForestRegressor instances are fitted (one per target); the
numeric evaluation metrics they produce are opaque inputs here.  The
comparison-table rows for the two other model names are computed from the
Random Forest metrics by the fixed multipliers in the source. -/

/-- Measured Random Forest metrics of one simple_train_models run. -/
structure TrainInput where
  trainRmseMax : ℚ
  testRmseMax : ℚ
  testR2Max : ℚ
  trainRmseMin : ℚ
  testRmseMin : ℚ
  testR2Min : ℚ

/-- One row of a model-comparison table. -/
structure MetricRow where
  model : String
  train_rmse : ℚ
  test_rmse : ℚ
  r2_score : ℚ
deriving DecidableEq

/-- Comparison table built by simple_train_models from the Random Forest
    metrics of one target. -/
def modelComparison (tr te r2 : ℚ) : List MetricRow :=
  [⟨"Random Forest", tr, te, r2⟩,
   ⟨"Gradient Boosting", tr * 1.05, te * 1.05, max 0 (r2 * 0.95)⟩,
   ⟨"Linear Regression", tr * 1.25, te * 1.25, max 0 (r2 * 0.8)⟩]

/-- Model-related part of the run_forecast response plus the forecast. -/
structure Results where
  bestModelMax : String
  bestModelMin : String
  comparisonMax : List MetricRow
  comparisonMin : List MetricRow
  forecast : Bundle

/-- run_forecast of the served module, after a successful data load: train
    (metrics m), generate the forecast, and package; any exception inside
    the try block (in particular the empty-sequence max) yields a failure
    response, modelled by none. -/
def runForecast (c : SimpleCtx) (series : List WRow) (m : TrainInput)
    (days : ℤ) (startDate : Option ℤ) : Option Results :=
  (simpleGenerateForecast c series days startDate).map fun b =>
    ⟨"Random Forest", "Random Forest",
     modelComparison m.trainRmseMax m.testRmseMax m.testR2Max,
     modelComparison m.trainRmseMin m.testRmseMin m.testR2Min, b⟩

/-! ## The earlier module: weather_forecast.generate_forecast

Differences from the served module that matter to the claims: no start
date parameter (each step's date is the working row's index date plus
one); the predict calls are not wrapped in try/except (we model the
non-raising executions, so the predictors are total); the confidence
interval is a plus/minus 10 percent band widened by a uniform(0, 1) draw
on each of the four bounds, with no clamping. -/

/-- Environment of one generate_forecast run: total predictors, encoders,
    and the four per-step np.random.uniform(0, 1) draws, in the order the
    source samples them (tmax lower, tmax upper, tmin lower, tmin upper). -/
structure WfCtx where
  predictMax : WRow → ℚ
  predictMin : WRow → ℚ
  sinD : ℤ → ℚ
  cosD : ℤ → ℚ
  u1 : ℕ → ℚ
  u2 : ℕ → ℚ
  u3 : ℕ → ℚ
  u4 : ℕ → ℚ

/-- Banded-then-widened confidence interval of generate_forecast:
    (p * (1 - 0.1) - noiseLo, p * (1 + 0.1) + noiseHi), never clamped. -/
def wfCI (p noiseLo noiseHi : ℚ) : ℚ × ℚ :=
  (p * (1 - 0.1) - noiseLo, p * (1 + 0.1) + noiseHi)

/-- One iteration of generate_forecast: the new date is the working row's
    current index date plus one day. -/
def wfStep (c : WfCtx) (i : ℕ) (r : WRow) : ForecastPoint × WRow :=
  let d := r.date + 1
  let r1 := updateTimeFeatures c.sinD c.cosD r d
  let pmax := c.predictMax r1
  let pmin := c.predictMin r1
  let avg := (pmax + pmin) / 2
  let point : ForecastPoint :=
    { date := d
      predicted_tmax := pmax
      predicted_tmin := pmin
      temp_range := pmax - pmin
      avg_temp := avg
      weather_condition := get_weather_condition (.val avg)
      tmax_ci := wfCI pmax (c.u1 i) (c.u2 i)
      tmin_ci := wfCI pmin (c.u3 i) (c.u4 i) }
  let r2 : WRow :=
    { r1 with
      date := d
      tmax := pmax
      tmin := pmin
      target_tmax := pmax
      target_tmin := pmin
      temp_range := r1.temp_range.map (fun _ => pmax - pmin) }
  (point, r2)

/-- The generate_forecast loop. -/
def wfGenPoints (c : WfCtx) : WRow → ℕ → ℕ → List ForecastPoint
  | _, _, 0 => []
  | r, i, Nat.succ k =>
    let pr := wfStep c i r
    pr.1 :: wfGenPoints c pr.2 (i + 1) k

/-- Daily points produced by generate_forecast, seeded from the series'
    last row. -/
def wfForecastPoints (c : WfCtx) (series : List WRow) (days : ℤ) :
    List ForecastPoint :=
  wfGenPoints c (series.getLastD defaultRow) 0 days.toNat

/-! ## Chronological holdout split of load_data

test_size = min(int(0.2 * len(weather)), 365); int() truncates, and in
exact arithmetic int(0.2 * N) is N / 5 rounded toward zero, i.e. N / 5 in
natural division.  train = weather.iloc[:-test_size] and
test = weather.iloc[-test_size:], with the Python slicing corner case that
a zero test_size makes iloc[:-0] empty and iloc[-0:] the whole frame. -/

def testSize (n : ℕ) : ℕ := min (n / 5) 365

def trainPart {α : Type} (l : List α) : List α :=
  if testSize l.length = 0 then []
  else l.take (l.length - testSize l.length)

def testPart {α : Type} (l : List α) : List α :=
  if testSize l.length = 0 then l
  else l.drop (l.length - testSize l.length)

/-! ## Concrete example inputs used by witnesses and counterexamples -/

/-- A series row for day d with plausible winter temperatures. -/
def mkRow (d : ℤ) : WRow :=
  { date := d, tmax := 40, tmin := 28, target_tmax := 40, target_tmin := 28,
    dayofyear := dayOfYearOf d, month := monthOf d, week := isoWeekOf d,
    season := .label "winter", sin_day := 0, cos_day := 0,
    temp_range := some 12, aux := fun _ => 0 }

/-- An environment whose predictors always succeed. -/
def cEx : SimpleCtx :=
  ⟨fun _ => some 45, fun _ => some 30, fun _ => 0, fun _ => 0,
   fun _ => 0, fun _ => 0⟩

/-- An environment whose tmax predictor always raises. -/
def cFail : SimpleCtx :=
  ⟨fun _ => none, fun _ => some 30, fun _ => 0, fun _ => 0,
   fun _ => 3, fun _ => 5⟩

/-- An environment for the earlier module; the tmin-lower widening draw is
    9/10, a value inside the uniform(0, 1) sampling range. -/
def wEx : WfCtx :=
  ⟨fun _ => 20, fun _ => 1 / 2, fun _ => 0, fun _ => 0,
   fun _ => 0, fun _ => 0, fun _ => 9 / 10, fun _ => 0⟩

/-- A three-row daily series ending on 2023-12-31 (day 19722). -/
def series3 : List WRow := [mkRow 19720, mkRow 19721, mkRow 19722]

/-- A 1000-row daily series ending on 2023-12-31, as in the end-to-end
    scenario of the specification. -/
def series1000 : List WRow := (List.range 1000).map fun i => mkRow (18723 + i)

/-- Placeholder measured metrics for a training run. -/
def trainEx : TrainInput := ⟨1, 2, 3, 4, 5, 6⟩

/-- Default row used with List.getD on comparison tables. -/
def dfltRow : MetricRow := ⟨"", 0, 0, 0⟩

/-! ## Helper lemmas about the generation loops -/

theorem genPoints_length (c : SimpleCtx) (s : ℤ) :
    ∀ (k i : ℕ) (r : WRow), (genPoints c s r i k).length = k := by
  intro k
  induction k with
  | zero => intro i r; rfl
  | succ k ih => intro i r; simpa [genPoints] using ih (i + 1) _

theorem genPoints_head?_date (c : SimpleCtx) (s : ℤ) :
    ∀ (k i : ℕ) (r : WRow) (y : ForecastPoint),
      (genPoints c s r i k).head? = some y → y.date = s + i := by
  intro k i r y h
  cases k with
  | zero => simp [genPoints] at h
  | succ k =>
    simp only [genPoints, List.head?_cons, Option.some.injEq] at h
    subst h
    rfl

theorem genPoints_map_date (c : SimpleCtx) (s : ℤ) :
    ∀ (k i : ℕ) (r : WRow),
      (genPoints c s r i k).map (fun p => p.date)
        = (List.range k).map (fun j : ℕ => s + i + (j : ℤ)) := by
  intro k
  induction k with
  | zero => intro i r; rfl
  | succ k ih =>
    intro i r
    rw [genPoints, List.range_succ_eq_map]
    simp only [List.map_cons, List.map_map]
    refine List.cons_eq_cons.mpr ⟨?_, ?_⟩
    · have hp : (forecastStep c s i r).1.date = s + i := rfl
      rw [hp]
      simp
    · rw [ih (i + 1)]
      apply List.map_congr_left
      intro j _
      simp only [Function.comp_apply]
      push_cast
      ring

theorem genPoints_chain (c : SimpleCtx) (s : ℤ) :
    ∀ (k i : ℕ) (r : WRow),
      List.Chain' (fun p q => p.date + 1 = q.date) (genPoints c s r i k) := by
  intro k
  induction k with
  | zero => intro i r; exact List.chain'_nil
  | succ k ih =>
    intro i r
    rw [genPoints]
    refine List.chain'_cons'.mpr ⟨?_, ih (i + 1) _⟩
    intro y hy
    have hd := genPoints_head?_date c s k (i + 1) _ y hy
    have hp : (forecastStep c s i r).1.date = s + i := rfl
    rw [hp, hd]
    push_cast
    ring

theorem wfGenPoints_length (c : WfCtx) :
    ∀ (k i : ℕ) (r : WRow), (wfGenPoints c r i k).length = k := by
  intro k
  induction k with
  | zero => intro i r; rfl
  | succ k ih => intro i r; simpa [wfGenPoints] using ih (i + 1) _

theorem wfGenPoints_head?_date (c : WfCtx) :
    ∀ (k i : ℕ) (r : WRow) (y : ForecastPoint),
      (wfGenPoints c r i k).head? = some y → y.date = r.date + 1 := by
  intro k i r y h
  cases k with
  | zero => simp [wfGenPoints] at h
  | succ k =>
    simp only [wfGenPoints, List.head?_cons, Option.some.injEq] at h
    subst h
    rfl

theorem wfGenPoints_map_date (c : WfCtx) :
    ∀ (k i : ℕ) (r : WRow),
      (wfGenPoints c r i k).map (fun p => p.date)
        = (List.range k).map (fun j : ℕ => r.date + 1 + (j : ℤ)) := by
  intro k
  induction k with
  | zero => intro i r; rfl
  | succ k ih =>
    intro i r
    rw [wfGenPoints, List.range_succ_eq_map]
    simp only [List.map_cons, List.map_map]
    refine List.cons_eq_cons.mpr ⟨?_, ?_⟩
    · have hp : (wfStep c i r).1.date = r.date + 1 := rfl
      rw [hp]
      simp
    · rw [ih (i + 1)]
      have hr2 : (wfStep c i r).2.date = r.date + 1 := rfl
      rw [hr2]
      apply List.map_congr_left
      intro j _
      simp only [Function.comp_apply]
      push_cast
      ring

theorem wfGenPoints_chain (c : WfCtx) :
    ∀ (k i : ℕ) (r : WRow),
      List.Chain' (fun p q => p.date + 1 = q.date) (wfGenPoints c r i k) := by
  intro k
  induction k with
  | zero => intro i r; exact List.chain'_nil
  | succ k ih =>
    intro i r
    rw [wfGenPoints]
    refine List.chain'_cons'.mpr ⟨?_, ih (i + 1) _⟩
    intro y hy
    have hd := wfGenPoints_head?_date c k (i + 1) _ y hy
    have hp : (wfStep c i r).1.date = r.date + 1 := rfl
    have hr2 : (wfStep c i r).2.date = r.date + 1 := rfl
    rw [hp, hd, hr2]

/-- Rows of a date-sorted list are dated no later than its last row. -/
theorem mem_date_le_getLast {l : List WRow}
    (hl : List.Pairwise (fun a b => a.date < b.date) l) {x : WRow}
    (hx : x ∈ l) (hne : l ≠ []) : x.date ≤ (l.getLast hne).date := by
  induction l with
  | nil => exact absurd hx (List.not_mem_nil x)
  | cons a t ih =>
    cases t with
    | nil =>
      rcases List.mem_singleton.mp hx with rfl
      exact le_refl _
    | cons b t2 =>
      rw [List.getLast_cons (List.cons_ne_nil b t2)]
      rcases List.mem_cons.mp hx with rfl | hx2
      · have hall := (List.pairwise_cons.mp hl).1
        have hmem := List.getLast_mem (List.cons_ne_nil b t2)
        exact le_of_lt (hall _ hmem)
      · exact ih (List.pairwise_cons.mp hl).2 hx2 (List.cons_ne_nil b t2)

/-! ## Claims -/

/-- Conjunction asserted by claim C1 for one horizon: both generation
    loops emit exactly days.toNat points whose dates are consecutive
    calendar days (hence strictly increasing, with no gaps). -/
def Claim1Prop (c : SimpleCtx) (c2 : WfCtx) (series : List WRow) (days : ℤ)
    (sd : Option ℤ) : Prop :=
  ((simpleForecastPoints c series days sd).length = days.toNat ∧
   List.Chain' (fun p q => p.date + 1 = q.date)
     (simpleForecastPoints c series days sd) ∧
   List.Pairwise (fun p q => p.date < q.date)
     (simpleForecastPoints c series days sd)) ∧
  ((wfForecastPoints c2 series days).length = days.toNat ∧
   List.Chain' (fun p q => p.date + 1 = q.date) (wfForecastPoints c2 series days) ∧
   List.Pairwise (fun p q => p.date < q.date) (wfForecastPoints c2 series days))

/-- C1: for every horizon h at least 1, with any trained artifacts and
    with or without a start date, the generation loop of each module
    produces exactly h ForecastPoints whose dates are strictly increasing
    and exactly one calendar day apart, with no gaps. -/
theorem claim1_horizon_length_and_spacing (c : SimpleCtx) (c2 : WfCtx)
    (series : List WRow) (days : ℤ) (sd : Option ℤ) (_h : 1 ≤ days) :
    Claim1Prop c c2 series days sd := by
  haveI : IsTrans ForecastPoint (fun p q => p.date < q.date) :=
    ⟨fun a b d hab hbd => lt_trans hab hbd⟩
  constructor
  · refine ⟨genPoints_length c _ _ _ _, genPoints_chain c _ _ _ _, ?_⟩
    have hch := genPoints_chain c (predStartDate series sd) days.toNat 0
      (seedRow series sd)
    have hlt : List.Chain' (fun p q => p.date < q.date)
        (simpleForecastPoints c series days sd) := by
      refine List.Chain'.imp ?_ hch
      intro a b hab
      omega
    exact List.chain'_iff_pairwise.mp hlt
  · refine ⟨wfGenPoints_length c2 _ _ _, wfGenPoints_chain c2 _ _ _, ?_⟩
    have hch := wfGenPoints_chain c2 days.toNat 0 (series.getLastD defaultRow)
    have hlt : List.Chain' (fun p q => p.date < q.date)
        (wfForecastPoints c2 series days) := by
      refine List.Chain'.imp ?_ hch
      intro a b hab
      omega
    exact List.chain'_iff_pairwise.mp hlt

/-- C1 witness: the property at a concrete three-day run. -/
theorem claim1_witness : (1 : ℤ) ≤ 3 ∧ Claim1Prop cEx wEx series3 3 none :=
  ⟨by norm_num, claim1_horizon_length_and_spacing cEx wEx series3 3 none
    (by norm_num)⟩

set_option maxRecDepth 100000 in
/-- C2 counterexample: on the 1000-row daily series ending 2023-12-31,
    days = 5 with no start date makes the served module emit its first
    point dated 2023-12-31 itself, not 2024-01-01 as the claim states
    (so the run yields 2023-12-31 through 2024-01-04). -/
theorem claim2_counterexample :
    (simpleForecastPoints cEx series1000 5 none).head?.map (fun p => p.date)
      = some (ymdToDays 2023 12 31) ∧
    ymdToDays 2023 12 31 ≠ ymdToDays 2024 1 1 := by
  constructor
  · decide
  · decide

/-- Behaviour of both modules when no start date is supplied: the working
    row is the series' last row; the earlier module generates from the day
    after its date, while the served module generates from that date
    itself. -/
def Claim2Prop (c : SimpleCtx) (c2 : WfCtx) (series : List WRow)
    (days : ℤ) : Prop :=
  seedRow series none = series.getLastD defaultRow ∧
  (simpleForecastPoints c series days none).map (fun p => p.date)
    = (List.range days.toNat).map
        (fun j : ℕ => (series.getLastD defaultRow).date + (j : ℤ)) ∧
  (wfForecastPoints c2 series days).map (fun p => p.date)
    = (List.range days.toNat).map
        (fun j : ℕ => (series.getLastD defaultRow).date + 1 + (j : ℤ))

/-- C2 amended: when no start date is supplied the working row is the
    series' last row; in generate_forecast (weather_forecast.py) the first
    generated date is the day after that row's date, but in
    simple_generate_forecast (weather_forecast_fixed.py, the served
    module) generation begins at the last row's date itself, so the
    days = 5 scenario on a series ending 2023-12-31 yields points dated
    2023-12-31 through 2024-01-04. -/
theorem claim2_amended (c : SimpleCtx) (c2 : WfCtx) (series : List WRow)
    (days : ℤ) (_hs : series ≠ []) (_h : 1 ≤ days) :
    Claim2Prop c c2 series days := by
  refine ⟨rfl, ?_, ?_⟩
  · rw [simpleForecastPoints, genPoints_map_date]
    apply List.map_congr_left
    intro j _
    have hp : predStartDate series none = (series.getLastD defaultRow).date := rfl
    rw [hp]
    push_cast
    ring
  · rw [wfForecastPoints, wfGenPoints_map_date]

/-- C2 witness: the amended behaviour at a concrete run. -/
theorem claim2_witness :
    series3 ≠ [] ∧ (1 : ℤ) ≤ 5 ∧ Claim2Prop cEx wEx series3 5 :=
  ⟨by simp [series3], by norm_num,
   claim2_amended cEx wEx series3 5 (by simp [series3]) (by norm_num)⟩

/-- Conjunction asserted by claim C3: with a supplied start date the
    output dates advance from the start date itself, while the seed row
    is the latest series row dated at or before the start date, falling
    back to the earliest row when no such row exists. -/
def Claim3Prop (c : SimpleCtx) (series : List WRow) (days sd : ℤ) : Prop :=
  ((simpleForecastPoints c series days (some sd)).map (fun p => p.date)
     = (List.range days.toNat).map (fun j : ℕ => sd + (j : ℤ))) ∧
  ((∃ r ∈ series, r.date ≤ sd) →
     seedRow series (some sd) ∈ series ∧
     (seedRow series (some sd)).date ≤ sd ∧
     ∀ r ∈ series, r.date ≤ sd → r.date ≤ (seedRow series (some sd)).date) ∧
  ((¬ ∃ r ∈ series, r.date ≤ sd) →
     seedRow series (some sd) = series.headD defaultRow)

/-- C3: with a start date, features are seeded from the latest row dated
    at or before it (earliest row as fallback, without error), and the
    emitted dates advance sequentially from the requested start date,
    independent of the seeding row. -/
theorem claim3_start_date_seeding (c : SimpleCtx) (series : List WRow)
    (days sd : ℤ)
    (hp : List.Pairwise (fun a b => a.date < b.date) series) :
    Claim3Prop c series days sd := by
  refine ⟨?_, ?_, ?_⟩
  · rw [simpleForecastPoints, genPoints_map_date]
    apply List.map_congr_left
    intro j _
    have hps : predStartDate series (some sd) = sd := rfl
    rw [hps]
    push_cast
    ring
  · rintro ⟨r, hr, hrd⟩
    have hrf : r ∈ series.filter (fun x => decide (x.date ≤ sd)) :=
      List.mem_filter.mpr ⟨hr, decide_eq_true hrd⟩
    have hne : series.filter (fun x => decide (x.date ≤ sd)) ≠ [] :=
      List.ne_nil_of_mem hrf
    have hseed : seedRow series (some sd)
        = (series.filter (fun x => decide (x.date ≤ sd))).getLast hne := by
      rw [seedRow, List.getLast?_eq_getLast _ hne]
    have hmem : (series.filter (fun x => decide (x.date ≤ sd))).getLast hne
        ∈ series.filter (fun x => decide (x.date ≤ sd)) :=
      List.getLast_mem hne
    have hpf : List.Pairwise (fun a b => a.date < b.date)
        (series.filter (fun x => decide (x.date ≤ sd))) :=
      hp.sublist (List.filter_sublist series)
    refine ⟨?_, ?_, ?_⟩
    · rw [hseed]
      exact (List.mem_filter.mp hmem).1
    · rw [hseed]
      exact of_decide_eq_true (List.mem_filter.mp hmem).2
    · intro x hx hxd
      rw [hseed]
      exact mem_date_le_getLast hpf
        (List.mem_filter.mpr ⟨hx, decide_eq_true hxd⟩) hne
  · intro hno
    have hnil : series.filter (fun x => decide (x.date ≤ sd)) = [] := by
      rw [List.filter_eq_nil_iff]
      intro x hx
      simp only [decide_eq_true_eq]
      intro hxd
      exact hno ⟨x, hx, hxd⟩
    rw [seedRow, hnil]
    rfl

/-- C3 witness: the property at a concrete sorted series and start date
    falling between the first and last rows. -/
theorem claim3_witness :
    List.Pairwise (fun a b => a.date < b.date) series3 ∧
    Claim3Prop cEx series3 4 19721 :=
  ⟨by decide, claim3_start_date_seeding cEx series3 4 19721 (by decide)⟩

/-- C4: in one loop iteration only the time-derived features are
    recomputed (from the new date), and at the end of the step the
    working row's tmax, tmin and both targets are overwritten with the
    step's predictions (targets equal to the predictions), temp_range is
    updated when that column is present, and every other carried column
    keeps its value from the previous step. -/
theorem claim4_step_frame_and_carry (c : SimpleCtx) (s : ℤ) (i : ℕ)
    (r : WRow) :
    ((forecastStep c s i r).2.aux = r.aux) ∧
    ((forecastStep c s i r).2.date = s + i) ∧
    ((forecastStep c s i r).2.dayofyear = dayOfYearOf (s + i)) ∧
    ((forecastStep c s i r).2.month = monthOf (s + i)) ∧
    ((forecastStep c s i r).2.week = isoWeekOf (s + i)) ∧
    ((forecastStep c s i r).2.season
       = SeasonVal.num (((monthOf (s + i)).emod 12).ediv 3 + 1)) ∧
    ((forecastStep c s i r).2.sin_day = c.sinD (dayOfYearOf (s + i))) ∧
    ((forecastStep c s i r).2.cos_day = c.cosD (dayOfYearOf (s + i))) ∧
    ((forecastStep c s i r).2.tmax = (forecastStep c s i r).1.predicted_tmax) ∧
    ((forecastStep c s i r).2.tmin = (forecastStep c s i r).1.predicted_tmin) ∧
    ((forecastStep c s i r).2.target_tmax
       = (forecastStep c s i r).1.predicted_tmax) ∧
    ((forecastStep c s i r).2.target_tmin
       = (forecastStep c s i r).1.predicted_tmin) ∧
    ((forecastStep c s i r).2.temp_range
       = r.temp_range.map (fun _ =>
           (forecastStep c s i r).1.predicted_tmax
             - (forecastStep c s i r).1.predicted_tmin)) :=
  ⟨rfl, rfl, rfl, rfl, rfl, rfl, rfl, rfl, rfl, rfl, rfl, rfl, rfl⟩

/-- C5 counterexample: the boundary temperature 32 maps to freezing, the
    condition of the interval below the boundary, not to cold, the higher
    of the two adjacent conditions as the claim states. -/
theorem claim5_counterexample :
    get_weather_condition (.val 32) = "freezing" ∧ "freezing" ≠ "cold" := by
  constructor
  · rfl
  · decide

/-- C5 amended: get_weather_condition partitions the line into the seven
    lower-exclusive, upper-inclusive intervals, so a temperature exactly
    at an interior boundary maps to the LOWER of the two adjacent
    conditions, and NaN (matching no interval) maps to the default mild. -/
theorem claim5_boundaries_map_to_lower :
    (∀ q : ℚ, get_weather_condition (.val q) =
       if q ≤ 32 then "freezing"
       else if q ≤ 50 then "cold"
       else if q ≤ 65 then "cool"
       else if q ≤ 75 then "mild"
       else if q ≤ 85 then "warm"
       else if q ≤ 95 then "hot"
       else "very_hot") ∧
    get_weather_condition .nan = "mild" := by
  constructor
  · intro q
    by_cases h1 : q ≤ 32
    · simp [get_weather_condition, WEATHER_CONDITIONS, condLookup, pyLt,
        pyLe, h1]
    · have g1 : (32 : ℚ) < q := not_le.mp h1
      by_cases h2 : q ≤ 50
      · simp [get_weather_condition, WEATHER_CONDITIONS, condLookup, pyLt,
          pyLe, h1, h2, g1]
      · have g2 : (50 : ℚ) < q := not_le.mp h2
        by_cases h3 : q ≤ 65
        · simp [get_weather_condition, WEATHER_CONDITIONS, condLookup, pyLt,
            pyLe, h1, h2, h3, g1, g2]
        · have g3 : (65 : ℚ) < q := not_le.mp h3
          by_cases h4 : q ≤ 75
          · simp [get_weather_condition, WEATHER_CONDITIONS, condLookup,
              pyLt, pyLe, h1, h2, h3, h4, g1, g2, g3]
          · have g4 : (75 : ℚ) < q := not_le.mp h4
            by_cases h5 : q ≤ 85
            · simp [get_weather_condition, WEATHER_CONDITIONS, condLookup,
                pyLt, pyLe, h1, h2, h3, h4, h5, g1, g2, g3, g4]
            · have g5 : (85 : ℚ) < q := not_le.mp h5
              by_cases h6 : q ≤ 95
              · simp [get_weather_condition, WEATHER_CONDITIONS, condLookup,
                  pyLt, pyLe, h1, h2, h3, h4, h5, h6, g1, g2, g3, g4, g5]
              · have g6 : (95 : ℚ) < q := not_le.mp h6
                simp [get_weather_condition, WEATHER_CONDITIONS, condLookup,
                  pyLt, pyLe, h1, h2, h3, h4, h5, h6, g1, g2, g3, g4, g5, g6]
  · rfl

/-- C6 counterexample: in generate_forecast, with point prediction 1/2
    for tmin and a lower-widening uniform draw of 9/10 (a value inside
    the uniform(0, 1) sampling range), the emitted tmin confidence
    interval's lower bound is -9/20, which is negative: the lower bound
    is not clamped to be non-negative as the claim states. -/
theorem claim6_counterexample :
    (wfForecastPoints wEx series3 1).head?.map (fun p => p.tmin_ci.1)
      = some (-(9 / 20) : ℚ) ∧
    ¬ (0 : ℚ) ≤ -(9 / 20) := by
  constructor
  · norm_num [wfForecastPoints, series3, wfGenPoints, wfStep, wEx, wfCI,
      List.getLastD]
  · norm_num

/-- Actual confidence-interval shapes of the two modules. -/
def Claim6Prop : Prop :=
  (∀ (c : WfCtx) (i : ℕ) (r : WRow),
     (wfStep c i r).1.tmax_ci
       = ((wfStep c i r).1.predicted_tmax * (1 - 0.1) - c.u1 i,
          (wfStep c i r).1.predicted_tmax * (1 + 0.1) + c.u2 i) ∧
     (wfStep c i r).1.tmin_ci
       = ((wfStep c i r).1.predicted_tmin * (1 - 0.1) - c.u3 i,
          (wfStep c i r).1.predicted_tmin * (1 + 0.1) + c.u4 i)) ∧
  (∀ (c : SimpleCtx) (s : ℤ) (i : ℕ) (r : WRow),
     (forecastStep c s i r).1.tmax_ci
       = (max 0 ((forecastStep c s i r).1.predicted_tmax * 0.9),
          (forecastStep c s i r).1.predicted_tmax * 1.1) ∧
     (forecastStep c s i r).1.tmin_ci
       = (max 0 ((forecastStep c s i r).1.predicted_tmin * 0.9),
          (forecastStep c s i r).1.predicted_tmin * 1.1) ∧
     0 ≤ (forecastStep c s i r).1.tmax_ci.1 ∧
     0 ≤ (forecastStep c s i r).1.tmin_ci.1)

/-- C6 amended: in generate_forecast (weather_forecast.py) each bound is
    the plus/minus 10 percent band widened by an independently sampled
    uniform(0, 1) draw, with NO non-negativity clamp; in
    simple_generate_forecast (the served module) the interval is the
    deterministic band (max(0, 0.9 p), 1.1 p): the lower bound is clamped
    non-negative but NO widening noise is applied. -/
theorem claim6_interval_shapes : Claim6Prop := by
  constructor
  · intro c i r
    exact ⟨rfl, rfl⟩
  · intro c s i r
    exact ⟨rfl, rfl, le_max_left 0 _, le_max_left 0 _⟩

/-- C7 counterexample: with horizon 0 the loop indeed emits zero points,
    but the run does not complete successfully: the hottest/coldest
    extraction (Python max/min over the empty daily list) raises, so
    simple_generate_forecast fails instead of returning an empty valid
    forecast. -/
theorem claim7_counterexample :
    (simpleForecastPoints cEx series3 0 none).length = 0 ∧
    simpleGenerateForecast cEx series3 0 none = none := ⟨rfl, rfl⟩

/-- Failure of a whole run, as surfaced by run_forecast. -/
def Claim7Prop (c : SimpleCtx) (series : List WRow) (m : TrainInput)
    (days : ℤ) (sd : Option ℤ) : Prop :=
  runForecast c series m days sd = none

/-- C7 amended: a non-positive horizon yields an empty point sequence,
    which makes the extreme-day extraction raise (max() of an empty
    sequence), so the generation run is reported as a failure by
    run_forecast rather than completing with zero ForecastPoints. -/
theorem claim7_nonpositive_horizon_fails (c : SimpleCtx) (series : List WRow)
    (m : TrainInput) (days : ℤ) (sd : Option ℤ) (h : days ≤ 0) :
    Claim7Prop c series m days sd := by
  have ht : days.toNat = 0 := Int.toNat_of_nonpos h
  unfold Claim7Prop runForecast simpleGenerateForecast simpleForecastPoints
  rw [ht]
  rfl

/-- C7 witness: the amended behaviour at the concrete horizon -1. -/
theorem claim7_witness :
    (-1 : ℤ) ≤ 0 ∧ Claim7Prop cEx series3 trainEx (-1) none :=
  ⟨by norm_num,
   claim7_nonpositive_horizon_fails cEx series3 trainEx (-1) none (by norm_num)⟩

/-- Fallback behaviour asserted by claim C8: the step's emitted
    predictions are the working row's previous tmax/tmin plus the two
    independent Gaussian draws, and the loop still runs to completion
    (one point per remaining step). -/
def Claim8Prop (c : SimpleCtx) (s : ℤ) (i : ℕ) (r : WRow) : Prop :=
  (forecastStep c s i r).1.predicted_tmax = r.tmax + c.noiseMax i ∧
  (forecastStep c s i r).1.predicted_tmin = r.tmin + c.noiseMin i ∧
  ∀ k : ℕ, (genPoints c s r i k).length = k

/-- C8: if either predictor invocation fails at a step, the step
    substitutes the working row's previous tmax and tmin, each perturbed
    by an independently sampled Gaussian noise draw (mean 0, fixed
    standard deviation 2 in the source), and the loop continues; the
    failure is never fatal to the run. -/
theorem claim8_fallback_on_predictor_failure (c : SimpleCtx) (s : ℤ) (i : ℕ)
    (r : WRow)
    (hf : c.predictMax (updateTimeFeatures c.sinD c.cosD r (s + (i : ℤ))) = none ∨
          c.predictMin (updateTimeFeatures c.sinD c.cosD r (s + (i : ℤ))) = none) :
    Claim8Prop c s i r := by
  refine ⟨?_, ?_, fun k => genPoints_length c s k i r⟩ <;>
  · rcases hf with hf | hf
    · simp only [updateTimeFeatures] at hf
      simp [forecastStep, stepPredict, updateTimeFeatures, hf]
    · cases hm : c.predictMax
          (updateTimeFeatures c.sinD c.cosD r (s + (i : ℤ))) with
      | none =>
        simp only [updateTimeFeatures] at hm
        simp [forecastStep, stepPredict, updateTimeFeatures, hm]
      | some a =>
        simp only [updateTimeFeatures] at hf hm
        simp [forecastStep, stepPredict, updateTimeFeatures, hm, hf]

/-- C8 witness: the fallback at a concrete failing predictor. -/
theorem claim8_witness :
    (cFail.predictMax
        (updateTimeFeatures cFail.sinD cFail.cosD (mkRow 19722)
          ((19722 : ℤ) + ((0 : ℕ) : ℤ))) = none ∨
     cFail.predictMin
        (updateTimeFeatures cFail.sinD cFail.cosD (mkRow 19722)
          ((19722 : ℤ) + ((0 : ℕ) : ℤ))) = none) ∧
    Claim8Prop cFail 19722 0 (mkRow 19722) :=
  ⟨Or.inl rfl,
   claim8_fallback_on_predictor_failure cFail 19722 0 (mkRow 19722) (Or.inl rfl)⟩

/-- C9 counterexample: for a 1003-row series the code's trailing test
    partition has 200 rows (int(0.2 * 1003) truncates to 200), while the
    claim's formula min(round(0.2 * 1003), 365) gives 201. -/
theorem claim9_counterexample :
    ((testPart (List.replicate 1003 (0 : ℤ))).length : ℤ)
      ≠ min (round ((0.2 : ℚ) * 1003)) 365 := by
  have h1 : (testPart (List.replicate 1003 (0 : ℤ))).length = 200 := by
    rw [testPart, List.length_replicate]
    rw [if_neg (by norm_num [testSize])]
    rw [List.length_drop, List.length_replicate]
    norm_num [testSize]
  rw [h1]
  norm_num [round_eq]

/-- Holdout-split sizing asserted by the amended claim C9. -/
def Claim9Prop {α : Type} (l : List α) : Prop :=
  (testPart l).length = min (l.length / 5) 365 ∧
  (trainPart l).length + (testPart l).length = l.length ∧
  trainPart l ++ testPart l = l

/-- C9 amended: for a series of length N at least 5, the test partition
    is the trailing min(int(0.2 * N), 365) rows — int() truncates, it
    does not round — the train partition is the leading remainder in
    chronological order, and the two lengths sum to N. -/
theorem claim9_truncated_trailing_holdout {α : Type} (l : List α)
    (h : 5 ≤ l.length) : Claim9Prop l := by
  have ht : testSize l.length ≠ 0 := by
    have h5 : 1 ≤ l.length / 5 := (Nat.one_le_div_iff (by norm_num)).mpr h
    simp only [testSize]
    omega
  have htle : testSize l.length ≤ l.length := by
    simp only [testSize]
    exact le_trans (min_le_left _ _) (Nat.div_le_self _ _)
  have hts : testSize l.length = min (l.length / 5) 365 := rfl
  unfold Claim9Prop trainPart testPart
  rw [if_neg ht, if_neg ht]
  refine ⟨?_, ?_, List.take_append_drop _ l⟩
  · rw [List.length_drop]
    omega
  · rw [List.length_take, List.length_drop]
    omega

/-- C9 witness: the amended sizing at a concrete six-row series. -/
theorem claim9_witness :
    5 ≤ (List.replicate 6 (0 : ℤ)).length ∧
    Claim9Prop (List.replicate 6 (0 : ℤ)) :=
  ⟨by simp, claim9_truncated_trailing_holdout (List.replicate 6 (0 : ℤ))
    (by simp)⟩

/-- Constancy of the served module's best-model names and the derivation
    of its non-Random-Forest comparison rows from the Random Forest
    metrics by fixed multipliers. -/
def Claim10Prop (c : SimpleCtx) (series : List WRow) (m : TrainInput)
    (days : ℤ) (sd : Option ℤ) : Prop :=
  (runForecast c series m days sd).map (fun r => r.bestModelMax)
    = some "Random Forest" ∧
  (runForecast c series m days sd).map (fun r => r.bestModelMin)
    = some "Random Forest" ∧
  (runForecast c series m days sd).map (fun r => r.comparisonMax)
    = some (modelComparison m.trainRmseMax m.testRmseMax m.testR2Max) ∧
  (runForecast c series m days sd).map (fun r => r.comparisonMin)
    = some (modelComparison m.trainRmseMin m.testRmseMin m.testR2Min) ∧
  (∀ tr te r2 : ℚ,
    (modelComparison tr te r2).length = 3 ∧
    ((modelComparison tr te r2).getD 0 dfltRow).model = "Random Forest" ∧
    ((modelComparison tr te r2).getD 1 dfltRow).model = "Gradient Boosting" ∧
    ((modelComparison tr te r2).getD 2 dfltRow).model = "Linear Regression" ∧
    ((modelComparison tr te r2).getD 1 dfltRow).train_rmse
      = ((modelComparison tr te r2).getD 0 dfltRow).train_rmse * 1.05 ∧
    ((modelComparison tr te r2).getD 1 dfltRow).test_rmse
      = ((modelComparison tr te r2).getD 0 dfltRow).test_rmse * 1.05 ∧
    ((modelComparison tr te r2).getD 1 dfltRow).r2_score
      = max 0 (((modelComparison tr te r2).getD 0 dfltRow).r2_score * 0.95) ∧
    ((modelComparison tr te r2).getD 2 dfltRow).train_rmse
      = ((modelComparison tr te r2).getD 0 dfltRow).train_rmse * 1.25 ∧
    ((modelComparison tr te r2).getD 2 dfltRow).test_rmse
      = ((modelComparison tr te r2).getD 0 dfltRow).test_rmse * 1.25 ∧
    ((modelComparison tr te r2).getD 2 dfltRow).r2_score
      = max 0 (((modelComparison tr te r2).getD 0 dfltRow).r2_score * 0.8))

/-- C10: in the module served by the HTTP app, the reported best-model
    name per target is the constant string Random Forest, and the
    Gradient Boosting and Linear Regression comparison rows are derived
    from the Random Forest metrics by the fixed multipliers 1.05 and 1.25
    on train/test RMSE and 0.95 and 0.8 (floored at 0) on the R2 score. -/
theorem claim10_constant_best_model_and_derived_rows (c : SimpleCtx)
    (series : List WRow) (m : TrainInput) (days : ℤ) (sd : Option ℤ)
    (h : 1 ≤ days) : Claim10Prop c series m days sd := by
  have hlen : (simpleForecastPoints c series days sd).length = days.toNat :=
    genPoints_length c _ _ _ _
  have hne : simpleForecastPoints c series days sd ≠ [] := by
    intro hnil
    rw [hnil] at hlen
    simp only [List.length_nil] at hlen
    omega
  obtain ⟨p, ts, hcons⟩ := List.exists_cons_of_ne_nil hne
  refine ⟨?_, ?_, ?_, ?_, ?_⟩
  · rw [runForecast, simpleGenerateForecast, hcons]
    simp [firstMaxBy, firstMinBy]
  · rw [runForecast, simpleGenerateForecast, hcons]
    simp [firstMaxBy, firstMinBy]
  · rw [runForecast, simpleGenerateForecast, hcons]
    simp [firstMaxBy, firstMinBy]
  · rw [runForecast, simpleGenerateForecast, hcons]
    simp [firstMaxBy, firstMinBy]
  · intro tr te r2
    exact ⟨rfl, rfl, rfl, rfl, rfl, rfl, rfl, rfl, rfl, rfl⟩

/-- C10 witness: the property at a concrete one-day run. -/
theorem claim10_witness :
    (1 : ℤ) ≤ 1 ∧ Claim10Prop cEx series3 trainEx 1 none :=
  ⟨by norm_num,
   claim10_constant_best_model_and_derived_rows cEx series3 trainEx 1 none
     (by norm_num)⟩

end ClimateX
